import Mathlib

/-!
Verification of the data-aggregation core of the Dashboard repository
(`src/app/actions.ts`): the time-windowed cache, the profit/loss
computation, the transaction-history normalisation, the chart
bucketizer, and the withdraw/balance entry points.

Conventions of the shallow embedding:
* JS numbers that carry amounts, prices or timestamps are modelled as `ℚ`
  (the arithmetic the claims mention is exact on the inputs involved);
  raw on-chain integer amounts (wei / token units) are `ℕ`.
* `ethers.formatEther v` is `v / 10^18`; `ethers.formatUnits v d` is
  `v / 10^d` (numeric content of the formatted string).
* Network effects are parameters: a fetch that can fail is an
  `Except String _` argument; an environment variable is an
  `Option String` argument.
* The module-level `cache` `Map` is explicit state of type `Cache α`,
  threaded through the functions that read or write it.
-/

/-- JS `s.toLowerCase()`: lower-case every character. -/
def lower (s : String) : String := ⟨s.data.map Char.toLower⟩

/-- JS truthiness test used for env vars: `!v || v.includes('your')`.
`none` models an unset variable, the empty string is falsy, and
`includes` is substring containment. -/
def isUnconfigured : Option String → Bool
  | none => true
  | some s => s.isEmpty || decide ("your".toList <:+: s.toList)

/-- JS `s.startsWith(p)`: the characters of `p` are a prefix of those of
`s`. -/
def startsWith (s p : String) : Bool := p.data.isPrefixOf s.data

/-! ## Time-windowed cache (`actions.ts` lines 6-37) -/

/-- `CACHE_DURATION = 60000` ms. -/
def CACHE_DURATION : ℚ := 60000

/-- `CacheEntry<T> { data, timestamp }`. -/
structure CacheEntry (α : Type) where
  data : α
  timestamp : ℚ
deriving DecidableEq

/-- The module-level `cache` map, as a function from keys to entries. -/
def Cache (α : Type) : Type := String → Option (CacheEntry α)

/-- A cache with no entries. -/
def Cache.empty {α : Type} : Cache α := fun _ => none

/-- `cache.delete(key)`. -/
def Cache.del {α : Type} (c : Cache α) (key : String) : Cache α :=
  fun k => if k = key then none else c k

/-- `getCachedData(key)` at time `now`: returns the stored value when the
entry is younger than `CACHE_DURATION`, otherwise deletes the entry and
returns `null`.  The second component is the cache after the call. -/
def getCachedData {α : Type} (c : Cache α) (key : String) (now : ℚ) :
    Option α × Cache α :=
  match c key with
  | some e =>
    if now - e.timestamp < CACHE_DURATION then (some e.data, c)
    else (none, c.del key)
  | none => (none, c.del key)

/-- `setCachedData(key, data)` at time `now`. -/
def setCachedData {α : Type} (c : Cache α) (key : String) (data : α) (now : ℚ) :
    Cache α :=
  fun k => if k = key then some ⟨data, now⟩ else c k

/-! ## Data model (`actions.ts` lines 41-71) -/

/-- `asset: 'ETH' | 'TOKEN'`. -/
inductive Asset where
  | ETH
  | TOKEN
deriving DecidableEq

/-- `type: 'deposit' | 'withdraw'`. -/
inductive TxType where
  | deposit
  | withdraw
deriving DecidableEq

/-- `Transaction` records returned by `getTransactionHistory`.
`fromAddr` and `toAddr` embed the TS fields `from` and `to` (Lean
keywords); `value` and
`tokenValue` hold the numeric content of the formatted amount strings;
`timestamp` is in milliseconds. -/
structure Transaction where
  hash : String
  fromAddr : String
  toAddr : String
  value : ℚ
  timestamp : ℚ
  type : TxType
  tokenValue : ℚ
  asset : Asset
deriving DecidableEq

/-- `ChartDataPoint { value, timestamp }`. -/
structure ChartDataPoint where
  value : ℚ
  timestamp : ℚ
deriving DecidableEq

/-- `WalletData` (string fields hold numeric content; the `.toFixed(2)`
display rounding is presentation and is not modelled). -/
structure WalletData where
  balance : ℚ
  portfolioValue : ℚ
  profit : ℚ
  profitPercent : ℚ
  tokenBalance : ℚ
  transactions : List Transaction
  ethPrice : ℚ
deriving DecidableEq

/-! ## Profit/loss (`calculateTokenProfitLoss`, lines 239-282) -/

/-- `calculateTokenProfitLoss(transactions, currentTokenBalance, publicKey)`.
The `for` loop accumulating `totalIn`/`totalOut` is a left fold. -/
def calculateTokenProfitLoss (transactions : List Transaction)
    (currentTokenBalance : ℚ) (publicKey : String) : ℚ × ℚ :=
  let tokenTxs := transactions.filter (fun tx => decide (tx.asset = Asset.TOKEN))
  if tokenTxs.length = 0 then (0, 0)
  else
    let totals := tokenTxs.foldl
      (fun (acc : ℚ × ℚ) tx =>
        if lower tx.toAddr = lower publicKey then (acc.1 + tx.tokenValue, acc.2)
        else (acc.1, acc.2 + tx.tokenValue))
      (0, 0)
    let current := currentTokenBalance
    let invested := totals.1 - totals.2
    if invested ≤ 0 then (current, if invested < 0 then 100 else 0)
    else (current - invested, (current - invested) / invested * 100)

/-- The profit/loss step as the specification words it: `totalIn` is the
sum of token amounts of token-asset transfers whose recipient equals the
address (case-insensitively), `totalOut` the sum of the other token
amounts, `invested = totalIn - totalOut`, with the same branch structure.
Used only to compare against `calculateTokenProfitLoss`. -/
def profitLossSpec (transactions : List Transaction)
    (currentTokenBalance : ℚ) (publicKey : String) : ℚ × ℚ :=
  let tokenTxs := transactions.filter (fun tx => decide (tx.asset = Asset.TOKEN))
  if tokenTxs = [] then (0, 0)
  else
    let totalIn :=
      ((tokenTxs.filter (fun tx => decide (lower tx.toAddr = lower publicKey))).map
        Transaction.tokenValue).sum
    let totalOut :=
      ((tokenTxs.filter (fun tx => ! decide (lower tx.toAddr = lower publicKey))).map
        Transaction.tokenValue).sum
    let invested := totalIn - totalOut
    if invested ≤ 0 then
      (currentTokenBalance, if invested < 0 then 100 else 0)
    else
      (currentTokenBalance - invested,
        (currentTokenBalance - invested) / invested * 100)

/-! ## Chart bucketizer (`getChartData` lines 398-471,
`generateEmptyChart` lines 473-493) -/

/-- The TS union `'1H' | '6H' | '1D' | '1W' | '1M' | 'All'`. -/
inductive Period where
  | p1H
  | p6H
  | p1D
  | p1W
  | p1M
  | pAll
deriving DecidableEq

/-- The `ranges` record (milliseconds); identical in `getChartData` and
`generateEmptyChart`.  The `|| ranges['1D']` fallback is unreachable for
the six members of the union type and so has no counterpart here. -/
def ranges : Period → ℚ
  | .p1H => 60 * 60 * 1000
  | .p6H => 6 * 60 * 60 * 1000
  | .p1D => 24 * 60 * 60 * 1000
  | .p1W => 7 * 24 * 60 * 60 * 1000
  | .p1M => 30 * 24 * 60 * 60 * 1000
  | .pAll => 365 * 24 * 60 * 60 * 1000

/-- `period === '1H' ? 12 : period === '6H' ? 24 : period === '1D' ? 48 : 50`;
computed with this very expression both in `getChartData` (as `intervals`)
and in `generateEmptyChart` (as `count`). -/
def intervalsFor : Period → ℕ
  | .p1H => 12
  | .p6H => 24
  | .p1D => 48
  | _ => 50

/-- `generateEmptyChart(period)` at time `now`:
`Array.from({length: count}, (_, i) => ({value: 1000, timestamp: now - (count - i) * (range / count)}))`. -/
def generateEmptyChart (now : ℚ) (period : Period) : List ChartDataPoint :=
  let range := ranges period
  let count := intervalsFor period
  (List.range count).map
    (fun (i : ℕ) => ⟨1000, now - ((count : ℚ) - (i : ℚ)) * (range / count)⟩)

/-- The computational core of `getChartData(publicKey, period)`: the part
after the cache lookup and the history fetch, applied to the fetched
`transactions` at time `now`.  The loop `for (let i = intervals; i >= 0; i--)`
is the map over `j = 0, …, intervals` with `i = intervals - j`; the inner
loop over `tokenTxs` is a left fold. -/
def getChartData (now : ℚ) (transactions : List Transaction)
    (period : Period) : List ChartDataPoint :=
  let tokenTxs := transactions.filter (fun tx => decide (tx.asset = Asset.TOKEN))
  if tokenTxs.length = 0 then generateEmptyChart now period
  else
    let timeRange := ranges period
    let intervals := intervalsFor period
    (List.range (intervals + 1)).map (fun (j : ℕ) =>
      let i : ℚ := (intervals : ℚ) - (j : ℚ)
      let timestamp := now - i * timeRange / (intervals : ℚ)
      let runningBalance := tokenTxs.foldl
        (fun acc tx =>
          if tx.timestamp ≤ timestamp then
            if tx.type = TxType.deposit then acc + tx.tokenValue
            else acc - tx.tokenValue
          else acc)
        0
      ⟨max 0 runningBalance, timestamp⟩)

/-! ## Transaction history (`getTransactionHistory`, lines 284-396) -/

/-- A raw record of an Etherscan `txlist`/`tokentx` response, with the
fields the code reads.  `value` is the raw integer amount (wei for native
records, minimal token units for token records); `timeStamp` is in
seconds; `tokenDecimal` is only meaningful on token records, `0` standing
for a missing/falsy field (the `tx.tokenDecimal || tokenDecimals`
fallback). -/
structure RawTx where
  hash : String
  fromAddr : String
  toAddr : String
  value : ℕ
  timeStamp : ℚ
  tokenDecimal : ℕ
deriving DecidableEq

/-- Normalisation of one raw native record (lines 349-358):
`value` via `formatEther`, `tokenValue: '0'`, `asset: 'ETH'`. -/
def mkEthTx (publicKey : String) (tx : RawTx) : Transaction where
  hash := tx.hash
  fromAddr := tx.fromAddr
  toAddr := tx.toAddr
  value := (tx.value : ℚ) / 10 ^ 18
  timestamp := tx.timeStamp * 1000
  type := if lower tx.toAddr = lower publicKey then .deposit else .withdraw
  tokenValue := 0
  asset := .ETH

/-- Normalisation of one raw token record (lines 366-375):
`value: '0'`, `tokenValue` via `formatUnits(tx.value, tx.tokenDecimal || tokenDecimals)`,
`asset: 'TOKEN'`. -/
def mkTokenTx (publicKey : String) (tokenDecimals : ℕ) (tx : RawTx) :
    Transaction where
  hash := tx.hash
  fromAddr := tx.fromAddr
  toAddr := tx.toAddr
  value := 0
  timestamp := tx.timeStamp * 1000
  type := if lower tx.toAddr = lower publicKey then .deposit else .withdraw
  tokenValue :=
    (tx.value : ℚ) / 10 ^ (if tx.tokenDecimal = 0 then tokenDecimals else tx.tokenDecimal)
  asset := .TOKEN

/-- Sort comparator `(a, b) => b.timestamp - a.timestamp`: descending by
timestamp. -/
def tsDesc (a b : Transaction) : Prop := b.timestamp ≤ a.timestamp

instance : DecidableRel tsDesc :=
  fun a b => inferInstanceAs (Decidable (b.timestamp ≤ a.timestamp))

instance : IsTotal Transaction tsDesc :=
  ⟨fun a b => le_total b.timestamp a.timestamp⟩

instance : IsTrans Transaction tsDesc :=
  ⟨fun _ _ _ h₁ h₂ => le_trans h₂ h₁⟩

/-- The merge step of `getTransactionHistory` (lines 345-386): a response
is `none` when its `status !== '1'` or its `result` is not an array
(that half contributes nothing), otherwise the record list.  Native
records are capped with `slice(0, 10)`, token records with `slice(0, 20)`,
the concatenation is sorted descending by timestamp (`Array.prototype.sort`
is a stable sort; so is `List.insertionSort`) and capped with
`slice(0, 30)`. -/
def getTransactionHistoryCore (publicKey : String) (tokenDecimals : ℕ)
    (ethResult tokenResult : Option (List RawTx)) : List Transaction :=
  let ethTxs := match ethResult with
    | some l => (l.take 10).map (mkEthTx publicKey)
    | none => []
  let tokenTxs := match tokenResult with
    | some l => (l.take 20).map (mkTokenTx publicKey tokenDecimals)
    | none => []
  (List.insertionSort tsDesc (ethTxs ++ tokenTxs)).take 30

/-- `getTransactionHistory(publicKey, tokenDecimals)` with its effects
explicit: `cache`/`now` for the cache, `apiKey` for
`process.env.ETHERSCAN_API_KEY`, `chainId` for
`process.env.NEXT_PUBLIC_CHAIN_ID`, and `fetchResult` for the pair of
awaited Etherscan calls — `Except.error` when either request fails
(timeout, non-2xx response, or an exception while mapping a malformed
record), `Except.ok` with the two parsed responses otherwise.  Returns
the transaction list and the cache after the call; the `catch` block
(lines 388-395) turns any failure into `[]`. -/
def getTransactionHistory (cache : Cache (List Transaction)) (now : ℚ)
    (chainId : String) (apiKey : Option String) (publicKey : String)
    (tokenDecimals : ℕ)
    (fetchResult : Except String (Option (List RawTx) × Option (List RawTx))) :
    List Transaction × Cache (List Transaction) :=
  let cacheKey := "tx_" ++ publicKey ++ "_" ++ chainId
  let g := getCachedData cache cacheKey now
  match g.1 with
  | some cached => (cached, g.2)
  | none =>
    if isUnconfigured apiKey then ([], g.2)
    else
      match fetchResult with
      | .error _ => ([], g.2)
      | .ok (ethResult, tokenResult) =>
        let txs := getTransactionHistoryCore publicKey tokenDecimals ethResult tokenResult
        (txs, setCachedData g.2 cacheKey txs now)

/-! ## Withdraw (`withdrawFunds`, lines 558-631) -/

/-- The `{ success, txHash?, error? }` result shape of `depositFunds` and
`withdrawFunds`. -/
structure TransferResult where
  success : Bool
  txHash : Option String
  error : Option String
deriving DecidableEq

/-- What a `withdrawFunds` call did: its returned result, whether
`tokenContract.transfer` was invoked, and which cache keys were
deleted. -/
structure WithdrawEffects where
  result : TransferResult
  transferCalled : Bool
  deletedKeys : List String
deriving DecidableEq

/-- `withdrawFunds(toAddress, amount)` with its effects explicit.
`privateKey` is `process.env.WALLET_PRIVATE_KEY`; `walletAddress` is the
signer's address; `setup` is the part of the `try` block before the
transfer — provider/wallet construction, `getTokenContract` (which throws
when `TOKEN_CONTRACT_ADDRESS` is unconfigured) and
`tokenContract.balanceOf(wallet.address)` — yielding the raw token
balance; `amountInUnits` is the value of `ethers.parseUnits(amount, 6)`;
`txOutcome` is the transfer submission and the raced confirmation wait,
an error on rejection or on the 60 s timeout, otherwise the transaction
hash and the receipt status.
The address guard `!toAddress || !toAddress.startsWith('0x') ||
toAddress.length !== 42` is written without the redundant `!toAddress`
(the empty string fails `startsWith('0x')`). -/
def withdrawFunds (toAddress : String) (privateKey : Option String)
    (walletAddress chainId : String) (setup : Except String ℕ)
    (amountInUnits : ℕ) (txOutcome : Except String (String × ℤ)) :
    WithdrawEffects :=
  if ¬ (startsWith toAddress "0x" = true ∧ toAddress.length = 42) then
    ⟨⟨false, none, some "Invalid recipient address"⟩, false, []⟩
  else if isUnconfigured privateKey then
    ⟨⟨false, none, some "Wallet private key not configured"⟩, false, []⟩
  else
    match setup with
    | .error e => ⟨⟨false, none, some e⟩, false, []⟩
    | .ok balance =>
      if balance < amountInUnits then
        ⟨⟨false, none, some "Insufficient balance"⟩, false, []⟩
      else
        match txOutcome with
        | .error e => ⟨⟨false, none, some e⟩, true, []⟩
        | .ok (txHash, status) =>
          if status ≠ 1 then
            ⟨⟨false, none, some "Transaction failed on-chain"⟩, true, []⟩
          else
            ⟨⟨true, some txHash, none⟩, true,
              ["balance_" ++ walletAddress ++ "_" ++ chainId,
               "balance_" ++ toAddress ++ "_" ++ chainId]⟩

/-! ## Balance aggregator (`getWalletBalance`, lines 123-237) -/

/-- `getWalletBalance(publicKey)` with its effects explicit.  `rpcUrl` is
`process.env.RPC_URL`; `network` is the `provider.getNetwork()` probe;
`ethBalanceWei` is `provider.getBalance(publicKey)`; `tokenFetch` is the
inner guarded token triple fetch, giving the raw token balance and the
token decimals (its failure is tolerated: balance `'0'`, 6 decimals);
`ethPrice` is `getEthPrice()` (which never throws: it falls back to a
constant); `transactions` is `getTransactionHistory(publicKey, …)` (which
never throws: it falls back to `[]`).  Any error escaping the `try` block
is rethrown as `Failed to fetch wallet data: …`.  Returns the result and
the cache after the call. -/
def getWalletBalance (cache : Cache WalletData) (now : ℚ)
    (publicKey chainId : String) (rpcUrl : Option String)
    (network : Except String Unit) (ethBalanceWei : Except String ℕ)
    (tokenFetch : Except String (ℕ × ℕ)) (ethPrice : ℚ)
    (transactions : List Transaction) :
    Except String WalletData × Cache WalletData :=
  let cacheKey := "balance_" ++ publicKey ++ "_" ++ chainId
  let g := getCachedData cache cacheKey now
  match g.1 with
  | some cached => (.ok cached, g.2)
  | none =>
    if ¬ (startsWith publicKey "0x" = true ∧ publicKey.length = 42) then
      (.error "Invalid Ethereum address", g.2)
    else if isUnconfigured rpcUrl then
      (.error "RPC_URL not configured in .env.local", g.2)
    else
      match network with
      | .error e => (.error ("Failed to fetch wallet data: " ++ e), g.2)
      | .ok _ =>
        match ethBalanceWei with
        | .error e => (.error ("Failed to fetch wallet data: " ++ e), g.2)
        | .ok wei =>
          let ethBalance : ℚ := (wei : ℚ) / 10 ^ 18
          let tokenBalance : ℚ :=
            match tokenFetch with
            | .ok (raw, dec) => (raw : ℚ) / 10 ^ dec
            | .error _ => 0
          let portfolioValue := ethBalance * ethPrice + tokenBalance
          let pnl := calculateTokenProfitLoss transactions tokenBalance publicKey
          let data : WalletData :=
            ⟨ethBalance, portfolioValue, pnl.1, pnl.2, tokenBalance,
              transactions, ethPrice⟩
          (.ok data, setCachedData g.2 cacheKey data now)

/-! ## Theorems -/

/-- The `for` loop of `calculateTokenProfitLoss` accumulates the sums of
the matching and non-matching token amounts. -/
lemma foldl_totals (pk : String) (l : List Transaction) (a b : ℚ) :
    l.foldl
      (fun (acc : ℚ × ℚ) tx =>
        if lower tx.toAddr = lower pk then (acc.1 + tx.tokenValue, acc.2)
        else (acc.1, acc.2 + tx.tokenValue))
      (a, b)
    = (a + ((l.filter (fun tx => decide (lower tx.toAddr = lower pk))).map
          Transaction.tokenValue).sum,
       b + ((l.filter (fun tx => ! decide (lower tx.toAddr = lower pk))).map
          Transaction.tokenValue).sum) := by
  induction l generalizing a b with
  | nil => simp
  | cons x xs ih =>
    by_cases h : lower x.toAddr = lower pk
    · simp [List.foldl_cons, h, ih, add_assoc]
    · simp [List.foldl_cons, h, ih, add_assoc]

/-- C1: `calculateTokenProfitLoss` filters to token-asset transfers,
returns `(0, 0)` when none remain, and otherwise computes
`invested = totalIn - totalOut` over the case-insensitive recipient
split and branches exactly as the specification states — it agrees with
the specification-worded `profitLossSpec` on every input; in particular
`totalIn = 100, totalOut = 0, balance = 80` gives `(-20, -20)` and
`totalIn = 0, totalOut = 50, balance = 10` gives `(10, 100)`. -/
theorem calculateTokenProfitLoss_correct :
    (∀ (transactions : List Transaction) (currentTokenBalance : ℚ)
        (publicKey : String),
      calculateTokenProfitLoss transactions currentTokenBalance publicKey
        = profitLossSpec transactions currentTokenBalance publicKey) ∧
    calculateTokenProfitLoss
      [⟨"h1", "0xb", "0xa", 0, 1, .deposit, 100, .TOKEN⟩] 80 "0xa"
      = (-20, -20) ∧
    calculateTokenProfitLoss
      [⟨"h2", "0xa", "0xb", 0, 1, .withdraw, 50, .TOKEN⟩] 10 "0xa"
      = (10, 100) := by
  refine ⟨?_, by norm_num [calculateTokenProfitLoss], ?_⟩
  case refine_2 =>
    have hab : ¬ (lower "0xb" = lower "0xa") := by decide
    norm_num [calculateTokenProfitLoss, hab]
  intro txs bal pk
  simp only [calculateTokenProfitLoss, profitLossSpec, List.length_eq_zero]
  by_cases h : txs.filter (fun tx => decide (tx.asset = Asset.TOKEN)) = []
  · simp [h]
  · rw [if_neg h, if_neg h, foldl_totals]
    simp

/-- C4: a `get` immediately after `set(key, value)` returns the stored
value (and leaves the cache unchanged); a `get` performed once the
60-second freshness window has elapsed returns absent and removes the
entry. -/
theorem cache_get_after_set {α : Type} (c : Cache α) (key : String) (v : α)
    (t now : ℚ) :
    getCachedData (setCachedData c key v t) key t
      = (some v, setCachedData c key v t) ∧
    (CACHE_DURATION ≤ now - t →
      (getCachedData (setCachedData c key v t) key now).1 = none ∧
      (getCachedData (setCachedData c key v t) key now).2 key = none) := by
  constructor
  · norm_num [getCachedData, setCachedData, CACHE_DURATION]
  · intro h
    have h' : ¬ (now - t < CACHE_DURATION) := not_lt.mpr h
    norm_num [getCachedData, setCachedData, Cache.del, h']

/-- Witness for `cache_get_after_set` at `t = 0`, `now = 60000`. -/
theorem cache_get_after_set_witness :
    CACHE_DURATION ≤ (60000 : ℚ) - 0 ∧
    (getCachedData (setCachedData (Cache.empty : Cache ℕ) "k" 7 0) "k" 60000).1
      = none ∧
    (getCachedData (setCachedData (Cache.empty : Cache ℕ) "k" 7 0) "k" 60000).2 "k"
      = none := by
  have h : CACHE_DURATION ≤ (60000 : ℚ) - 0 := by norm_num [CACHE_DURATION]
  exact ⟨h, (cache_get_after_set (Cache.empty : Cache ℕ) "k" 7 0 60000).2 h⟩

/-- C2 fails on the empty history: for period `1H` the placeholder series
has `12` points, not `intervals + 1 = 13`. -/
theorem getChartData_empty_1H_count :
    (getChartData 0 [] Period.p1H).length = 12 ∧
    intervalsFor Period.p1H + 1 = 13 := by
  constructor
  · simp [getChartData, generateEmptyChart, intervalsFor]
  · rfl

/-- C2 (amended): `getChartData` returns `intervals + 1` points when at
least one token-asset transfer is present and `intervals` points when
none is, with `intervals` equal to 12, 24, 48, 50, 50, 50 for the
periods 1H, 6H, 1D, 1W, 1M, All respectively. -/
theorem getChartData_length (now : ℚ) (transactions : List Transaction)
    (period : Period) :
    (getChartData now transactions period).length =
      (if (transactions.filter (fun tx => decide (tx.asset = Asset.TOKEN))).length = 0
        then intervalsFor period
        else intervalsFor period + 1) ∧
    intervalsFor Period.p1H = 12 ∧ intervalsFor Period.p6H = 24 ∧
    intervalsFor Period.p1D = 48 ∧ intervalsFor Period.p1W = 50 ∧
    intervalsFor Period.p1M = 50 ∧ intervalsFor Period.pAll = 50 := by
  refine ⟨?_, rfl, rfl, rfl, rfl, rfl, rfl⟩
  by_cases h : (transactions.filter (fun tx => decide (tx.asset = Asset.TOKEN))).length = 0
  · simp [getChartData, generateEmptyChart, h]
  · simp [getChartData, h]

/-- C3 fails on the point count: with an empty history and period `1D`
the placeholder series has `48` points, not `49`. -/
theorem getChartData_empty_1D_count :
    (getChartData 0 [] Period.p1D).length = 48 ∧ (48 : ℕ) ≠ 49 := by
  constructor
  · simp [getChartData, generateEmptyChart, intervalsFor]
  · decide

/-- C3 (amended): with an empty transfer history and period `1D`,
`getChartData` returns `48` points, every one with the placeholder value
`1000`, with evenly spaced timestamps 1800000 ms (30 min) apart running
from `now - 86400000` (24 h before `now`) up to `now - 1800000`. -/
theorem getChartData_empty_1D (now : ℚ) :
    getChartData now [] Period.p1D =
      (List.range 48).map
        (fun (i : ℕ) => ⟨1000, now - (48 - (i : ℚ)) * 1800000⟩) := by
  have he : getChartData now [] Period.p1D = generateEmptyChart now Period.p1D := rfl
  rw [he]
  simp only [generateEmptyChart, ranges, intervalsFor]
  refine List.map_congr_left ?_
  intro i _
  norm_num [ChartDataPoint.mk.injEq]

lemma ranges_pos (p : Period) : 0 < ranges p := by
  cases p <;> norm_num [ranges]

lemma intervalsFor_cast_pos (p : Period) : 0 < ((intervalsFor p : ℕ) : ℚ) := by
  cases p <;> norm_num [intervalsFor]

/-- Mapping a function with strictly increasing `timestamp` over
`List.range` yields a strictly-ascending point list. -/
lemma pairwise_lt_map_range (n : ℕ) (f : ℕ → ChartDataPoint)
    (hf : ∀ i j : ℕ, i < j → j < n → (f i).timestamp < (f j).timestamp) :
    ((List.range n).map f).Pairwise (fun a b => a.timestamp < b.timestamp) := by
  rw [List.pairwise_map, List.pairwise_iff_get]
  intro i j hij
  have hi : (List.range n).get i = i.val := by
    simp [List.get_eq_getElem]
  have hj : (List.range n).get j = j.val := by
    simp [List.get_eq_getElem]
  rw [hi, hj]
  exact hf _ _ hij (by simpa using j.isLt)

/-- Bucket-boundary timestamps `now - (c - i) * k` grow strictly with the
index when the bucket width `k` is positive. -/
lemma chart_timestamp_lt (now c k : ℚ) (hk : 0 < k) {i j : ℕ} (hij : i < j) :
    now - (c - (i : ℚ)) * k < now - (c - (j : ℚ)) * k := by
  have hij' : (i : ℚ) < (j : ℚ) := by exact_mod_cast hij
  have h : (c - (j : ℚ)) * k < (c - (i : ℚ)) * k :=
    mul_lt_mul_of_pos_right (by linarith) hk
  linarith

/-- C9: every point sequence `getChartData` returns — replayed series and
placeholder series alike — has strictly ascending timestamps, and every
point value is ≥ 0, the replayed running balance being clamped at zero by
`Math.max(0, runningBalance)`. -/
theorem getChartData_ascending_nonneg (now : ℚ)
    (transactions : List Transaction) (period : Period) :
    (getChartData now transactions period).Pairwise
      (fun a b => a.timestamp < b.timestamp) ∧
    ∀ i : Fin (getChartData now transactions period).length,
      0 ≤ ((getChartData now transactions period).get i).value := by
  have key : (getChartData now transactions period).Pairwise
      (fun a b => a.timestamp < b.timestamp) ∧
      ∀ p ∈ getChartData now transactions period, 0 ≤ p.value := by
    simp only [getChartData]
    by_cases h : (transactions.filter
        (fun tx => decide (tx.asset = Asset.TOKEN))).length = 0
    · rw [if_pos h]
      simp only [generateEmptyChart]
      constructor
      · refine pairwise_lt_map_range _ _ ?_
        intro i j hij _
        exact chart_timestamp_lt now _ _
          (div_pos (ranges_pos period) (intervalsFor_cast_pos period)) hij
      · intro p hp
        simp only [List.mem_map] at hp
        obtain ⟨i, _, rfl⟩ := hp
        norm_num
    · rw [if_neg h]
      constructor
      · refine pairwise_lt_map_range _ _ ?_
        intro i j hij _
        dsimp only
        rw [mul_div_assoc, mul_div_assoc]
        exact chart_timestamp_lt now _ _
          (div_pos (ranges_pos period) (intervalsFor_cast_pos period)) hij
      · intro p hp
        simp only [List.mem_map] at hp
        obtain ⟨j, _, rfl⟩ := hp
        exact le_max_left 0 _
  exact ⟨key.1, fun i => key.2 _ (List.get_mem _ _ _)⟩

/-- C5: with both ledger responses sorted descending by time (the order
the requests ask for with `sort: 'desc'`), `getTransactionHistory` keeps
the 10 most recent native records and the 20 most recent token records,
merges them, sorts the merge descending by timestamp, and returns — and
caches under the `tx_` key — its at most 30 most recent entries. -/
theorem getTransactionHistory_caps_sorts
    (cache : Cache (List Transaction)) (now : ℚ) (chainId : String)
    (apiKey : Option String) (publicKey : String) (tokenDecimals : ℕ)
    (ethList tokenList : List RawTx)
    (hmiss : (getCachedData cache ("tx_" ++ publicKey ++ "_" ++ chainId) now).1
      = none)
    (hkey : isUnconfigured apiKey = false)
    (hEth : ethList.Pairwise (fun a b => b.timeStamp ≤ a.timeStamp))
    (hTok : tokenList.Pairwise (fun a b => b.timeStamp ≤ a.timeStamp)) :
    (∀ x ∈ ethList.drop 10, ∀ y ∈ ethList.take 10,
      x.timeStamp ≤ y.timeStamp) ∧
    (∀ x ∈ tokenList.drop 20, ∀ y ∈ tokenList.take 20,
      x.timeStamp ≤ y.timeStamp) ∧
    (∃ s : List Transaction,
      ((ethList.take 10).map (mkEthTx publicKey)
        ++ (tokenList.take 20).map (mkTokenTx publicKey tokenDecimals)).Perm s ∧
      s.Pairwise tsDesc ∧
      getTransactionHistoryCore publicKey tokenDecimals
        (some ethList) (some tokenList) = s.take 30) ∧
    (getTransactionHistoryCore publicKey tokenDecimals
      (some ethList) (some tokenList)).length ≤ 30 ∧
    (getTransactionHistoryCore publicKey tokenDecimals
      (some ethList) (some tokenList)).Pairwise tsDesc ∧
    (getTransactionHistory cache now chainId apiKey publicKey tokenDecimals
        (.ok (some ethList, some tokenList))).1
      = getTransactionHistoryCore publicKey tokenDecimals
          (some ethList) (some tokenList) ∧
    (getTransactionHistory cache now chainId apiKey publicKey tokenDecimals
        (.ok (some ethList, some tokenList))).2
        ("tx_" ++ publicKey ++ "_" ++ chainId)
      = some ⟨getTransactionHistoryCore publicKey tokenDecimals
          (some ethList) (some tokenList), now⟩ := by
  refine ⟨?_, ?_, ?_, ?_, ?_, ?_, ?_⟩
  · exact fun x hx y hy =>
      List.Sorted.rel_of_mem_take_of_mem_drop hEth hy hx
  · exact fun x hx y hy =>
      List.Sorted.rel_of_mem_take_of_mem_drop hTok hy hx
  · exact ⟨List.insertionSort tsDesc
        ((ethList.take 10).map (mkEthTx publicKey)
          ++ (tokenList.take 20).map (mkTokenTx publicKey tokenDecimals)),
      (List.perm_insertionSort tsDesc _).symm,
      List.sorted_insertionSort tsDesc _, rfl⟩
  · exact List.length_take_le _ _
  · exact List.Pairwise.sublist (List.take_sublist _ _)
      (List.sorted_insertionSort tsDesc _)
  · simp [getTransactionHistory, hmiss, hkey]
  · simp [getTransactionHistory, hmiss, hkey, setCachedData]

/-- Witness for `getTransactionHistory_caps_sorts` on empty responses. -/
theorem getTransactionHistory_caps_sorts_witness :
    (getTransactionHistory Cache.empty 0 "1" (some "k") "0xa" 6
        (.ok (some [], some []))).1
      = getTransactionHistoryCore "0xa" 6 (some []) (some []) :=
  (getTransactionHistory_caps_sorts Cache.empty 0 "1" (some "k") "0xa" 6 [] []
    rfl (by decide) List.Pairwise.nil List.Pairwise.nil).2.2.2.2.2.1

/-- Every record of `getTransactionHistoryCore` is built by `mkEthTx` or
`mkTokenTx`, so its asset tag pins one of the two amounts to zero. -/
lemma mem_core_asset_amounts {publicKey : String} {tokenDecimals : ℕ}
    {ethResult tokenResult : Option (List RawTx)} {t : Transaction}
    (ht : t ∈ getTransactionHistoryCore publicKey tokenDecimals
      ethResult tokenResult) :
    (t.asset = Asset.ETH ∧ t.tokenValue = 0) ∨
    (t.asset = Asset.TOKEN ∧ t.value = 0) := by
  unfold getTransactionHistoryCore at ht
  have h1 := List.mem_of_mem_take ht
  rw [List.mem_insertionSort] at h1
  rcases List.mem_append.1 h1 with h | h
  · cases ethResult with
    | none => exact absurd h (List.not_mem_nil t)
    | some l =>
      obtain ⟨raw, _, rfl⟩ := List.mem_map.1 h
      exact Or.inl ⟨rfl, rfl⟩
  · cases tokenResult with
    | none => exact absurd h (List.not_mem_nil t)
    | some l =>
      obtain ⟨raw, _, rfl⟩ := List.mem_map.1 h
      exact Or.inr ⟨rfl, rfl⟩

/-- C6 (amended): every record constructed by `getTransactionHistory` has
AT MOST one of `value`/`tokenValue` non-zero, determined by its asset
tag: `ETH` records always carry `tokenValue = 0` and `TOKEN` records
always carry `value = 0`; when the raw `value` field is zero both sides
are zero, so "exactly one" does not hold. -/
theorem getTransactionHistoryCore_asset_amounts (publicKey : String)
    (tokenDecimals : ℕ) (ethResult tokenResult : Option (List RawTx)) :
    ∀ i : Fin (getTransactionHistoryCore publicKey tokenDecimals
        ethResult tokenResult).length,
      (((getTransactionHistoryCore publicKey tokenDecimals ethResult
          tokenResult).get i).asset = Asset.ETH ∧
        ((getTransactionHistoryCore publicKey tokenDecimals ethResult
          tokenResult).get i).tokenValue = 0) ∨
      (((getTransactionHistoryCore publicKey tokenDecimals ethResult
          tokenResult).get i).asset = Asset.TOKEN ∧
        ((getTransactionHistoryCore publicKey tokenDecimals ethResult
          tokenResult).get i).value = 0) :=
  fun _ => mem_core_asset_amounts (List.get_mem _ _ _)

/-- C6 fails as stated: a native record whose raw `value` field is zero
is normalised to a `Transaction` with `value = 0` AND `tokenValue = 0`,
so neither amount is non-zero. -/
theorem getTransactionHistoryCore_zero_value :
    getTransactionHistoryCore "0xa" 6 (some [⟨"h", "0xb", "0xa", 0, 1, 0⟩]) none
      = [mkEthTx "0xa" ⟨"h", "0xb", "0xa", 0, 1, 0⟩] ∧
    (mkEthTx "0xa" ⟨"h", "0xb", "0xa", 0, 1, 0⟩).value = 0 ∧
    (mkEthTx "0xa" ⟨"h", "0xb", "0xa", 0, 1, 0⟩).tokenValue = 0 ∧
    ¬(((mkEthTx "0xa" ⟨"h", "0xb", "0xa", 0, 1, 0⟩).value ≠ 0 ∧
        (mkEthTx "0xa" ⟨"h", "0xb", "0xa", 0, 1, 0⟩).tokenValue = 0) ∨
      ((mkEthTx "0xa" ⟨"h", "0xb", "0xa", 0, 1, 0⟩).value = 0 ∧
        (mkEthTx "0xa" ⟨"h", "0xb", "0xa", 0, 1, 0⟩).tokenValue ≠ 0)) := by
  refine ⟨rfl, ?_, rfl, ?_⟩
  · simp [mkEthTx]
  · simp [mkEthTx]

/-- C7: `getTransactionHistory` never raises (it is a total function into
transaction lists); on a cache miss it returns the empty sequence both
when the Etherscan credential is absent, empty, or a placeholder, and
when the request pair fails (timeout, non-success response status, or an
exception on a malformed record). -/
theorem getTransactionHistory_failure_empty
    (cache : Cache (List Transaction)) (now : ℚ) (chainId : String)
    (apiKey : Option String) (publicKey : String) (tokenDecimals : ℕ)
    (fetchResult : Except String (Option (List RawTx) × Option (List RawTx)))
    (hmiss : (getCachedData cache ("tx_" ++ publicKey ++ "_" ++ chainId) now).1
      = none) :
    (isUnconfigured apiKey = true →
      (getTransactionHistory cache now chainId apiKey publicKey tokenDecimals
        fetchResult).1 = []) ∧
    (∀ e, fetchResult = Except.error e →
      (getTransactionHistory cache now chainId apiKey publicKey tokenDecimals
        fetchResult).1 = []) := by
  constructor
  · intro hk
    simp only [getTransactionHistory, hmiss, hk, if_true]
  · intro e he
    subst he
    simp only [getTransactionHistory, hmiss]
    by_cases hk : isUnconfigured apiKey <;> simp [hk]

/-- Witness for `getTransactionHistory_failure_empty`: missing credential
and a timed-out request both yield `[]`. -/
theorem getTransactionHistory_failure_empty_witness :
    (getTransactionHistory Cache.empty 0 "1" none "0xa" 6
        (Except.error "timeout")).1 = [] :=
  (getTransactionHistory_failure_empty Cache.empty 0 "1" none "0xa" 6
    (Except.error "timeout") rfl).2 "timeout" rfl

/-- C8: when the requested amount in token units exceeds the wallet's
current token balance, `withdrawFunds` returns
`{success: false, error: 'Insufficient balance'}`, invokes no transfer,
and deletes no cache entry. -/
theorem withdrawFunds_insufficient (toAddress : String)
    (privateKey : Option String) (walletAddress chainId : String)
    (balance amountInUnits : ℕ) (txOutcome : Except String (String × ℤ))
    (haddr : startsWith toAddress "0x" = true ∧ toAddress.length = 42)
    (hkey : isUnconfigured privateKey = false)
    (hbal : balance < amountInUnits) :
    withdrawFunds toAddress privateKey walletAddress chainId (.ok balance)
        amountInUnits txOutcome
      = ⟨⟨false, none, some "Insufficient balance"⟩, false, []⟩ := by
  simp [withdrawFunds, haddr.1, haddr.2, hkey, hbal]

/-- Witness for `withdrawFunds_insufficient`: balance 5 against a request
of 10 token units. -/
theorem withdrawFunds_insufficient_witness :
    (startsWith "0x1234567890123456789012345678901234567890" "0x" = true ∧
      "0x1234567890123456789012345678901234567890".length = 42) ∧
    withdrawFunds "0x1234567890123456789012345678901234567890" (some "k")
        "0xdead" "1" (.ok 5) 10 (.error "unused")
      = ⟨⟨false, none, some "Insufficient balance"⟩, false, []⟩ :=
  ⟨by decide,
    withdrawFunds_insufficient "0x1234567890123456789012345678901234567890"
      (some "k") "0xdead" "1" 5 10 (.error "unused") (by decide) (by decide)
      (by decide)⟩

/-- C10: when a fresh entry sits under the `balance_` key,
`getWalletBalance` returns that cached snapshot at once — before the
address-syntax check and the RPC-configuration check — so the call
succeeds for every `publicKey` and every `rpcUrl`, malformed or
unconfigured ones included. -/
theorem getWalletBalance_cache_hit (cache : Cache WalletData) (now : ℚ)
    (publicKey chainId : String) (rpcUrl : Option String)
    (network : Except String Unit) (ethBalanceWei : Except String ℕ)
    (tokenFetch : Except String (ℕ × ℕ)) (ethPrice : ℚ)
    (transactions : List Transaction) (w : WalletData)
    (hhit : (getCachedData cache ("balance_" ++ publicKey ++ "_" ++ chainId)
      now).1 = some w) :
    getWalletBalance cache now publicKey chainId rpcUrl network ethBalanceWei
        tokenFetch ethPrice transactions
      = (.ok w,
        (getCachedData cache ("balance_" ++ publicKey ++ "_" ++ chainId)
          now).2) := by
  simp only [getWalletBalance, hhit]

/-- Witness for `getWalletBalance_cache_hit`: a malformed address and an
unset RPC URL still yield the cached snapshot. -/
theorem getWalletBalance_cache_hit_witness :
    (getWalletBalance
        (setCachedData (Cache.empty : Cache WalletData)
          ("balance_" ++ "bad" ++ "_" ++ "1") ⟨0, 0, 0, 0, 0, [], 0⟩ 0)
        0 "bad" "1" none (.error "e") (.error "e") (.error "e") 0 []).1
      = Except.ok ⟨0, 0, 0, 0, 0, [], 0⟩ := by
  have hh : (getCachedData
      (setCachedData (Cache.empty : Cache WalletData)
        ("balance_" ++ "bad" ++ "_" ++ "1") (⟨0, 0, 0, 0, 0, [], 0⟩ : WalletData) 0)
      ("balance_" ++ "bad" ++ "_" ++ "1") 0).1
      = some ⟨0, 0, 0, 0, 0, [], 0⟩ := by
    norm_num [getCachedData, setCachedData, CACHE_DURATION]
  exact congrArg Prod.fst (getWalletBalance_cache_hit _ 0 "bad" "1" none
    (.error "e") (.error "e") (.error "e") 0 [] _ hh)
